import Mathlib

/-!
Verification of the TaxBot tax-computation engine (`src/tax_engine.py`).

Python numbers are modelled as exact rationals (`ℚ`); the unbounded upper
bound `float('inf')` of the last slab is modelled as `Option ℚ` with `none`
standing for infinity.  Fallible code paths — the config lookup falling
through for an unrecognised fiscal-year key, and every caller that then
dereferences the missing config — are modelled with `Option`, `none` being
the `UnsupportedFiscalYear` failure.  The human-readable `tax_breakdown`
list of formatted strings is not modelled: no claim refers to it and the
tax accumulator in `calculate_income_tax` is independent of it.
-/

namespace TaxBot

/-- A tax slab `(lower, upper, rate)`; `upper = none` models `float('inf')`. -/
structure Slab where
  lower : ℚ
  upper : Option ℚ
  rate : ℚ
deriving DecidableEq

/-- The per-year configuration dictionary returned by `get_tax_slabs`. -/
structure TaxYearConfig where
  slabs : List Slab
  standard_deduction : ℚ
  rebate_limit : ℚ
  rebate_max : ℚ
  advance_tax_threshold : ℚ
deriving DecidableEq

/-- The config literal returned for `"FY 2024-25 / AY 2025-26"`
(lines 12-26 of `src/tax_engine.py`). -/
def cfg2024 : TaxYearConfig where
  slabs :=
    [⟨0, some 300000, 0⟩,
     ⟨300000, some 700000, 5/100⟩,
     ⟨700000, some 1000000, 10/100⟩,
     ⟨1000000, some 1200000, 15/100⟩,
     ⟨1200000, some 1500000, 20/100⟩,
     ⟨1500000, none, 30/100⟩]
  standard_deduction := 75000
  rebate_limit := 700000
  rebate_max := 25000
  advance_tax_threshold := 10000

/-- The config literal returned for `"FY 2025-26 / AY 2026-27"`
(lines 27-41 of `src/tax_engine.py`). -/
def cfg2025 : TaxYearConfig where
  slabs :=
    [⟨0, some 400000, 0⟩,
     ⟨400000, some 700000, 5/100⟩,
     ⟨700000, some 1000000, 10/100⟩,
     ⟨1000000, some 1200000, 15/100⟩,
     ⟨1200000, some 1500000, 20/100⟩,
     ⟨1500000, none, 30/100⟩]
  standard_deduction := 75000
  rebate_limit := 1200000
  rebate_max := 60000
  advance_tax_threshold := 10000

/-- `get_tax_slabs` from `src/tax_engine.py` (lines 8-41).  The Python
function falls off the end (returns `None`) for an unrecognised key. -/
def get_tax_slabs (fy_ay : String) : Option TaxYearConfig :=
  if fy_ay = "FY 2024-25 / AY 2025-26" then some cfg2024
  else if fy_ay = "FY 2025-26 / AY 2026-27" then some cfg2025
  else none

/-- `min taxable_income upper` where `upper` may be `float('inf')`. -/
def capAt (T : ℚ) : Option ℚ → ℚ
  | none => T
  | some u => min T u

/-- The accumulation loop of `calculate_income_tax` (lines 50-59):
iterate over the slabs, `break` as soon as `taxable_income <= lower`,
otherwise add `(min(taxable_income, upper) - lower) * rate`. -/
def slabLoop (T : ℚ) : List Slab → ℚ
  | [] => 0
  | s :: rest =>
    if T ≤ s.lower then 0
    else (capAt T s.upper - s.lower) * s.rate + slabLoop T rest

/-- `calculate_income_tax` (lines 43-69), restricted to the tax total
(the string breakdown is not modelled); `none` when the config lookup
failed, in which case the Python code crashes on `config["slabs"]`. -/
def calculate_income_tax (taxable_income : ℚ) (fy_ay : String) : Option ℚ :=
  (get_tax_slabs fy_ay).map fun config => slabLoop taxable_income config.slabs

/-- `calculate_rebate_87a` (lines 71-79). -/
def calculate_rebate_87a (gross_tax taxable_income : ℚ) (fy_ay : String) :
    Option ℚ :=
  (get_tax_slabs fy_ay).map fun config =>
    if taxable_income ≤ config.rebate_limit then min gross_tax config.rebate_max
    else 0

/-- `calculate_cess_and_surcharge` (lines 81-100). -/
def calculate_cess_and_surcharge (tax_after_rebate taxable_income : ℚ) :
    ℚ × ℚ :=
  let surcharge : ℚ :=
    if 5000000 < taxable_income then
      if taxable_income ≤ 10000000 then tax_after_rebate * (10/100)
      else if taxable_income ≤ 20000000 then tax_after_rebate * (15/100)
      else if taxable_income ≤ 50000000 then tax_after_rebate * (25/100)
      else tax_after_rebate * (37/100)
    else 0
  let cess : ℚ := (tax_after_rebate + surcharge) * (4/100)
  (surcharge, cess)

/-- `calculate_capital_gains_tax` (lines 102-112). -/
def calculate_capital_gains_tax (stcg ltcg : ℚ) : ℚ × ℚ :=
  (stcg * (15/100), max 0 (ltcg - 100000) * (10/100))

/-- The `income_details` dictionary: every key read by the engine via
`.get(key, 0)`, with absent keys modelled by the default value `0`. -/
structure IncomeProfile where
  basic_salary : ℚ := 0
  hra : ℚ := 0
  bonus : ℚ := 0
  rent_received : ℚ := 0
  municipal_tax : ℚ := 0
  interest_paid : ℚ := 0
  net_profit : ℚ := 0
  dividends : ℚ := 0
  interest_income : ℚ := 0
  stcg : ℚ := 0
  ltcg : ℚ := 0
deriving DecidableEq

/-- The result dictionary of `compute_total_tax_liability` (lines 166-178),
minus the unmodelled `tax_breakdown` strings. -/
structure TaxResult where
  taxable_income : ℚ
  gross_tax : ℚ
  rebate_87a : ℚ
  tax_after_rebate : ℚ
  surcharge : ℚ
  cess : ℚ
  stcg_tax : ℚ
  ltcg_tax : ℚ
  total_tax : ℚ
  advance_tax_required : Bool
deriving DecidableEq

/-- The taxable-income derivation of `compute_total_tax_liability`
(lines 119-142).  Only the `Salaried` branch touches the config, so only
it can fail on an unsupported fiscal-year key at this stage. -/
def computeTaxableIncome (income_details : IncomeProfile) (fy_ay : String)
    (employment_type : String) : Option ℚ :=
  if employment_type = "Salaried" then
    (get_tax_slabs fy_ay).map fun config =>
      max 0 (income_details.basic_salary + income_details.hra +
        income_details.bonus - config.standard_deduction)
  else if employment_type = "Rental" then
    some (max 0 (income_details.rent_received - income_details.municipal_tax -
      income_details.interest_paid))
  else if employment_type = "Freelancer" ∨ employment_type = "Business" then
    some income_details.net_profit
  else if employment_type = "Investor" then
    some (income_details.dividends + income_details.interest_income)
  else
    some 0

/-- `compute_total_tax_liability` (lines 114-178); `none` models the crash
on an unsupported fiscal-year key (`UnsupportedFiscalYear`). -/
def compute_total_tax_liability (income_details : IncomeProfile)
    (fy_ay : String) (employment_type : String) : Option TaxResult := do
  let taxable_income ← computeTaxableIncome income_details fy_ay employment_type
  let gross_tax ← calculate_income_tax taxable_income fy_ay
  let rebate_87a ← calculate_rebate_87a gross_tax taxable_income fy_ay
  let tax_after_rebate := gross_tax - rebate_87a
  let sc := calculate_cess_and_surcharge tax_after_rebate taxable_income
  let cg := calculate_capital_gains_tax income_details.stcg income_details.ltcg
  let total_tax := tax_after_rebate + sc.1 + sc.2 + cg.1 + cg.2
  let config ← get_tax_slabs fy_ay
  some
    { taxable_income := taxable_income,
      gross_tax := gross_tax,
      rebate_87a := rebate_87a,
      tax_after_rebate := tax_after_rebate,
      surcharge := sc.1,
      cess := sc.2,
      stcg_tax := cg.1,
      ltcg_tax := cg.2,
      total_tax := total_tax,
      advance_tax_required := decide (total_tax > config.advance_tax_threshold) }

/-- Specification formula for the gross slab tax (§4.3 of the spec):
`Σ over slabs of max(0, min(taxableIncome, upper) - lower) * rate`,
over all slabs, with no short-circuiting. -/
def refSlabTax (T : ℚ) (slabs : List Slab) : ℚ :=
  (slabs.map fun s => max 0 (capAt T s.upper - s.lower) * s.rate).sum

/-- The sum of all slab rates; a Lipschitz constant for the slab tax. -/
def ratesSum (slabs : List Slab) : ℚ := (slabs.map Slab.rate).sum

/-- Well-formedness of a slab table: lower bounds are non-decreasing along
the list and each slab's lower bound is at most its upper bound. -/
def slabsWF (slabs : List Slab) : Prop :=
  List.Pairwise (fun a b : Slab => a.lower ≤ b.lower) slabs ∧
  ∀ s ∈ slabs, ∀ x ∈ s.upper, s.lower ≤ x

theorem get_tax_slabs_2024 :
    get_tax_slabs ("FY 2024-25 / AY 2025-26") = some cfg2024 := rfl

theorem get_tax_slabs_2025 :
    get_tax_slabs ("FY 2025-26 / AY 2026-27") = some cfg2025 := rfl

theorem get_tax_slabs_cases {fy : String} {cfg : TaxYearConfig}
    (h : get_tax_slabs fy = some cfg) : cfg = cfg2024 ∨ cfg = cfg2025 := by
  unfold get_tax_slabs at h
  split_ifs at h <;> simp_all

theorem capAt_le (T : ℚ) (u : Option ℚ) : capAt T u ≤ T := by
  cases u with
  | none => exact le_refl T
  | some x => exact min_le_left T x

theorem capAt_mono {T1 T2 : ℚ} (h : T1 ≤ T2) (u : Option ℚ) :
    capAt T1 u ≤ capAt T2 u := by
  cases u with
  | none => exact h
  | some x => exact min_le_min h (le_refl x)

theorem abs_capAt_sub (T1 T2 : ℚ) (u : Option ℚ) :
    |capAt T1 u - capAt T2 u| ≤ |T1 - T2| := by
  cases u with
  | none => exact le_refl _
  | some x =>
    have h := abs_min_sub_min_le_max T1 x T2 x
    simpa using h

theorem refSlabTax_cons (T : ℚ) (s : Slab) (rest : List Slab) :
    refSlabTax T (s :: rest) =
      max 0 (capAt T s.upper - s.lower) * s.rate + refSlabTax T rest := by
  simp [refSlabTax]

theorem refSlabTax_eq_zero {T : ℚ} {slabs : List Slab}
    (h : ∀ s ∈ slabs, T ≤ s.lower) : refSlabTax T slabs = 0 := by
  induction slabs with
  | nil => rfl
  | cons s rest ih =>
    have hs := h s (List.mem_cons_self s rest)
    have h0 : capAt T s.upper - s.lower ≤ 0 := by
      have := capAt_le T s.upper; linarith
    rw [refSlabTax_cons, max_eq_left h0,
      ih (fun t ht => h t (List.mem_cons_of_mem s ht))]
    ring

/-- The short-circuiting loop of `calculate_income_tax` agrees with the
all-slabs reference formula on every well-formed slab table. -/
theorem slabLoop_eq_refSlabTax (T : ℚ) (slabs : List Slab) (hwf : slabsWF slabs) :
    slabLoop T slabs = refSlabTax T slabs := by
  obtain ⟨hp, hu⟩ := hwf
  induction slabs with
  | nil => rfl
  | cons s rest ih =>
    obtain ⟨hhead, htail⟩ := List.pairwise_cons.mp hp
    rw [refSlabTax_cons, slabLoop]
    by_cases hT : T ≤ s.lower
    · rw [if_pos hT]
      have h0 : capAt T s.upper - s.lower ≤ 0 := by
        have := capAt_le T s.upper; linarith
      rw [max_eq_left h0,
        refSlabTax_eq_zero (fun t ht => le_trans hT (hhead t ht))]
      ring
    · rw [if_neg hT]
      push_neg at hT
      have hcap : s.lower ≤ capAt T s.upper := by
        cases hc : s.upper with
        | none => simpa [capAt] using le_of_lt hT
        | some x =>
          have hx : s.lower ≤ x := hu s (List.mem_cons_self s rest) x (by simp [hc])
          simp only [capAt]
          exact le_min (le_of_lt hT) hx
      rw [max_eq_right (by linarith),
        ih htail (fun t ht => hu t (List.mem_cons_of_mem s ht))]

theorem refSlabTax_nonneg (T : ℚ) (slabs : List Slab)
    (hr : ∀ s ∈ slabs, 0 ≤ s.rate) : 0 ≤ refSlabTax T slabs := by
  induction slabs with
  | nil => exact le_refl 0
  | cons s rest ih =>
    rw [refSlabTax_cons]
    have h1 : 0 ≤ max 0 (capAt T s.upper - s.lower) * s.rate :=
      mul_nonneg (le_max_left 0 _) (hr s (List.mem_cons_self s rest))
    have h2 := ih (fun t ht => hr t (List.mem_cons_of_mem s ht))
    linarith

theorem refSlabTax_mono {T1 T2 : ℚ} (h : T1 ≤ T2) (slabs : List Slab)
    (hr : ∀ s ∈ slabs, 0 ≤ s.rate) :
    refSlabTax T1 slabs ≤ refSlabTax T2 slabs := by
  induction slabs with
  | nil => exact le_refl 0
  | cons s rest ih =>
    rw [refSlabTax_cons, refSlabTax_cons]
    have h1 : max 0 (capAt T1 s.upper - s.lower) ≤ max 0 (capAt T2 s.upper - s.lower) :=
      max_le_max (le_refl 0) (sub_le_sub_right (capAt_mono h s.upper) s.lower)
    have h2 := ih (fun t ht => hr t (List.mem_cons_of_mem s ht))
    have h3 := mul_le_mul_of_nonneg_right h1 (hr s (List.mem_cons_self s rest))
    linarith

theorem refSlabTax_lipschitz (T1 T2 : ℚ) (slabs : List Slab)
    (hr : ∀ s ∈ slabs, 0 ≤ s.rate) :
    |refSlabTax T1 slabs - refSlabTax T2 slabs| ≤ ratesSum slabs * |T1 - T2| := by
  induction slabs with
  | nil => simp [refSlabTax, ratesSum]
  | cons s rest ih =>
    rw [refSlabTax_cons, refSlabTax_cons]
    have hsr : 0 ≤ s.rate := hr s (List.mem_cons_self s rest)
    have hmax : |max 0 (capAt T1 s.upper - s.lower) - max 0 (capAt T2 s.upper - s.lower)| ≤
        |T1 - T2| := by
      have h1 := abs_max_sub_max_le_abs (capAt T1 s.upper - s.lower)
        (capAt T2 s.upper - s.lower) 0
      rw [max_comm _ (0:ℚ), max_comm (capAt T2 s.upper - s.lower) (0:ℚ)] at h1
      calc |max 0 (capAt T1 s.upper - s.lower) - max 0 (capAt T2 s.upper - s.lower)|
          ≤ |capAt T1 s.upper - s.lower - (capAt T2 s.upper - s.lower)| := h1
        _ = |capAt T1 s.upper - capAt T2 s.upper| := by ring_nf
        _ ≤ |T1 - T2| := abs_capAt_sub T1 T2 s.upper
    have hhead : |max 0 (capAt T1 s.upper - s.lower) * s.rate -
        max 0 (capAt T2 s.upper - s.lower) * s.rate| ≤ s.rate * |T1 - T2| := by
      rw [← sub_mul, abs_mul, abs_of_nonneg hsr, mul_comm s.rate]
      exact mul_le_mul_of_nonneg_right hmax hsr
    have htail := ih (fun t ht => hr t (List.mem_cons_of_mem s ht))
    have hsum : ratesSum (s :: rest) = s.rate + ratesSum rest := by
      simp [ratesSum]
    calc |max 0 (capAt T1 s.upper - s.lower) * s.rate + refSlabTax T1 rest -
          (max 0 (capAt T2 s.upper - s.lower) * s.rate + refSlabTax T2 rest)|
        ≤ |max 0 (capAt T1 s.upper - s.lower) * s.rate -
            max 0 (capAt T2 s.upper - s.lower) * s.rate| +
          |refSlabTax T1 rest - refSlabTax T2 rest| := by
          have h2 := abs_add (max 0 (capAt T1 s.upper - s.lower) * s.rate -
            max 0 (capAt T2 s.upper - s.lower) * s.rate)
            (refSlabTax T1 rest - refSlabTax T2 rest)
          have heq : max 0 (capAt T1 s.upper - s.lower) * s.rate + refSlabTax T1 rest -
              (max 0 (capAt T2 s.upper - s.lower) * s.rate + refSlabTax T2 rest) =
              (max 0 (capAt T1 s.upper - s.lower) * s.rate -
                max 0 (capAt T2 s.upper - s.lower) * s.rate) +
              (refSlabTax T1 rest - refSlabTax T2 rest) := by ring
          rw [heq]
          exact h2
      _ ≤ s.rate * |T1 - T2| + ratesSum rest * |T1 - T2| := add_le_add hhead htail
      _ = ratesSum (s :: rest) * |T1 - T2| := by rw [hsum]; ring

theorem slabsWF_cfg2024 : slabsWF cfg2024.slabs := by
  constructor
  · norm_num [cfg2024, List.pairwise_cons]
  · intro s hs x hx
    norm_num [cfg2024] at hs
    rcases hs with h | h | h | h | h | h <;> subst h <;>
      simp_all <;> linarith

theorem slabsWF_cfg2025 : slabsWF cfg2025.slabs := by
  constructor
  · norm_num [cfg2025, List.pairwise_cons]
  · intro s hs x hx
    norm_num [cfg2025] at hs
    rcases hs with h | h | h | h | h | h <;> subst h <;>
      simp_all <;> linarith

theorem ratesNonneg_cfg2024 : ∀ s ∈ cfg2024.slabs, 0 ≤ s.rate := by
  intro s hs
  norm_num [cfg2024] at hs
  rcases hs with h | h | h | h | h | h <;> subst h <;> norm_num

theorem ratesNonneg_cfg2025 : ∀ s ∈ cfg2025.slabs, 0 ≤ s.rate := by
  intro s hs
  norm_num [cfg2025] at hs
  rcases hs with h | h | h | h | h | h <;> subst h <;> norm_num

/-- Every supported config has a well-formed slab table with
non-negative rates. -/
theorem supported_config_wf {fy : String} {cfg : TaxYearConfig}
    (h : get_tax_slabs fy = some cfg) :
    slabsWF cfg.slabs ∧ ∀ s ∈ cfg.slabs, 0 ≤ s.rate := by
  rcases get_tax_slabs_cases h with h' | h' <;> subst h'
  · exact ⟨slabsWF_cfg2024, ratesNonneg_cfg2024⟩
  · exact ⟨slabsWF_cfg2025, ratesNonneg_cfg2025⟩


theorem computeTaxableIncome_eq (p : IncomeProfile) {fy : String}
    {cfg : TaxYearConfig} (h : get_tax_slabs fy = some cfg) (emp : String) :
    computeTaxableIncome p fy emp = some
      (if emp = "Salaried" then
        max 0 (p.basic_salary + p.hra + p.bonus - cfg.standard_deduction)
       else if emp = "Rental" then
        max 0 (p.rent_received - p.municipal_tax - p.interest_paid)
       else if emp = "Freelancer" ∨ emp = "Business" then p.net_profit
       else if emp = "Investor" then p.dividends + p.interest_income
       else 0) := by
  simp only [computeTaxableIncome]
  split_ifs <;> simp [h]

theorem compute_total_tax_liability_eq (p : IncomeProfile) {fy : String}
    {cfg : TaxYearConfig} (h : get_tax_slabs fy = some cfg) (emp : String)
    {ti : ℚ} (hti : computeTaxableIncome p fy emp = some ti) :
    compute_total_tax_liability p fy emp =
      some { taxable_income := ti,
             gross_tax := slabLoop ti cfg.slabs,
             rebate_87a :=
               if ti ≤ cfg.rebate_limit then min (slabLoop ti cfg.slabs) cfg.rebate_max
               else 0,
             tax_after_rebate := slabLoop ti cfg.slabs -
               (if ti ≤ cfg.rebate_limit then min (slabLoop ti cfg.slabs) cfg.rebate_max
                else 0),
             surcharge := (calculate_cess_and_surcharge
               (slabLoop ti cfg.slabs -
                 (if ti ≤ cfg.rebate_limit then
                   min (slabLoop ti cfg.slabs) cfg.rebate_max else 0)) ti).1,
             cess := (calculate_cess_and_surcharge
               (slabLoop ti cfg.slabs -
                 (if ti ≤ cfg.rebate_limit then
                   min (slabLoop ti cfg.slabs) cfg.rebate_max else 0)) ti).2,
             stcg_tax := (calculate_capital_gains_tax p.stcg p.ltcg).1,
             ltcg_tax := (calculate_capital_gains_tax p.stcg p.ltcg).2,
             total_tax := slabLoop ti cfg.slabs -
               (if ti ≤ cfg.rebate_limit then
                 min (slabLoop ti cfg.slabs) cfg.rebate_max else 0) +
               (calculate_cess_and_surcharge
                 (slabLoop ti cfg.slabs -
                   (if ti ≤ cfg.rebate_limit then
                     min (slabLoop ti cfg.slabs) cfg.rebate_max else 0)) ti).1 +
               (calculate_cess_and_surcharge
                 (slabLoop ti cfg.slabs -
                   (if ti ≤ cfg.rebate_limit then
                     min (slabLoop ti cfg.slabs) cfg.rebate_max else 0)) ti).2 +
               (calculate_capital_gains_tax p.stcg p.ltcg).1 +
               (calculate_capital_gains_tax p.stcg p.ltcg).2,
             advance_tax_required :=
               decide (cfg.advance_tax_threshold <
                 slabLoop ti cfg.slabs -
                 (if ti ≤ cfg.rebate_limit then
                   min (slabLoop ti cfg.slabs) cfg.rebate_max else 0) +
                 (calculate_cess_and_surcharge
                   (slabLoop ti cfg.slabs -
                     (if ti ≤ cfg.rebate_limit then
                       min (slabLoop ti cfg.slabs) cfg.rebate_max else 0)) ti).1 +
                 (calculate_cess_and_surcharge
                   (slabLoop ti cfg.slabs -
                     (if ti ≤ cfg.rebate_limit then
                       min (slabLoop ti cfg.slabs) cfg.rebate_max else 0)) ti).2 +
                 (calculate_capital_gains_tax p.stcg p.ltcg).1 +
                 (calculate_capital_gains_tax p.stcg p.ltcg).2) } := by
  simp [compute_total_tax_liability, calculate_income_tax, calculate_rebate_87a,
    h, hti, Option.bind]

/-- Claim C3: the Section-87A rebate equals `min(G, rebateCap)` when taxable
income is at most the year's rebate ceiling and `0` otherwise; for fiscal
year "FY 2025-26 / AY 2026-27" (ceiling 1200000, cap 60000) the rebate at
taxable income 1200000 is `min(G, 60000)` while at 1200001 it is `0`, and
the engine's tax-after-rebate jumps discontinuously from 15000 to 75000.2
across the ceiling. -/
theorem claim_C3_rebate_cliff (G T : ℚ) (fy : String) (cfg : TaxYearConfig)
    (h : get_tax_slabs fy = some cfg) :
    (T ≤ cfg.rebate_limit →
      calculate_rebate_87a G T fy = some (min G cfg.rebate_max)) ∧
    (cfg.rebate_limit < T → calculate_rebate_87a G T fy = some 0) ∧
    calculate_rebate_87a G 1200000 "FY 2025-26 / AY 2026-27" = some (min G 60000) ∧
    calculate_rebate_87a G 1200001 "FY 2025-26 / AY 2026-27" = some 0 ∧
    (∃ r1, compute_total_tax_liability { net_profit := 1200000 }
        "FY 2025-26 / AY 2026-27" "Freelancer" = some r1 ∧
      r1.tax_after_rebate = 15000) ∧
    (∃ r2, compute_total_tax_liability { net_profit := 1200001 }
        "FY 2025-26 / AY 2026-27" "Freelancer" = some r2 ∧
      r2.tax_after_rebate = 375001/5) := by
  refine ⟨fun hle => ?_, fun hgt => ?_, ?_, ?_, ?_, ?_⟩
  · simp [calculate_rebate_87a, h, hle]
  · simp [calculate_rebate_87a, h, not_le.mpr hgt]
  · norm_num [calculate_rebate_87a, get_tax_slabs_2025, cfg2025]
  · norm_num [calculate_rebate_87a, get_tax_slabs_2025, cfg2025]
  · have hti : computeTaxableIncome { net_profit := 1200000 }
        "FY 2025-26 / AY 2026-27" "Freelancer" = some 1200000 := by
      simp [computeTaxableIncome]
    refine ⟨_, compute_total_tax_liability_eq { net_profit := 1200000 }
      get_tax_slabs_2025 ("Freelancer") hti, ?_⟩
    norm_num [cfg2025, slabLoop, capAt]
  · have hti : computeTaxableIncome { net_profit := 1200001 }
        "FY 2025-26 / AY 2026-27" "Freelancer" = some 1200001 := by
      simp [computeTaxableIncome]
    refine ⟨_, compute_total_tax_liability_eq { net_profit := 1200001 }
      get_tax_slabs_2025 ("Freelancer") hti, ?_⟩
    norm_num [cfg2025, slabLoop, capAt]

theorem claim_C3_rebate_cliff_witness :
    calculate_rebate_87a 100 500000 "FY 2025-26 / AY 2026-27" =
      some (min 100 60000) ∧
    calculate_rebate_87a 100 1300000 "FY 2025-26 / AY 2026-27" = some 0 :=
  ⟨(claim_C3_rebate_cliff 100 500000 _ _ get_tax_slabs_2025).1
      (by norm_num [cfg2025]),
   (claim_C3_rebate_cliff 100 1300000 _ _ get_tax_slabs_2025).2.1
      (by norm_num [cfg2025])⟩



/-- Claim C1: for every fiscal-year key that is not one of the two supported
keys, the config lookup fails, and hence `calculate_income_tax` and
`compute_total_tax_liability` fail with the `UnsupportedFiscalYear` failure
(modelled as `none`), producing no `TaxResult` and never falling back to a
default year's rules. -/
theorem claim_C1_unsupported_year (fy : String)
    (h1 : fy ≠ "FY 2024-25 / AY 2025-26") (h2 : fy ≠ "FY 2025-26 / AY 2026-27") :
    get_tax_slabs fy = none ∧
    (∀ T, calculate_income_tax T fy = none) ∧
    ∀ p emp, compute_total_tax_liability p fy emp = none := by
  have hg : get_tax_slabs fy = none := by simp [get_tax_slabs, h1, h2]
  refine ⟨hg, fun T => by simp [calculate_income_tax, hg], fun p emp => ?_⟩
  simp only [compute_total_tax_liability, computeTaxableIncome, calculate_income_tax, hg]
  split_ifs <;> simp [Option.bind]

theorem claim_C1_unsupported_year_witness :
    get_tax_slabs ("FY 1999-00") = none ∧
    compute_total_tax_liability {} "FY 1999-00" "Salaried" = none :=
  ⟨(claim_C1_unsupported_year ("FY 1999-00") (by decide) (by decide)).1,
   (claim_C1_unsupported_year ("FY 1999-00") (by decide) (by decide)).2.2 {} "Salaried"⟩

/-- Claim C9: for a Salaried profile with basic salary 600000 and all other
fields 0 in fiscal year "FY 2025-26 / AY 2026-27",
`compute_total_tax_liability` returns taxable income 525000, gross tax 6250,
rebate 6250, tax after rebate 0, surcharge 0, cess 0, capital-gains taxes 0,
total liability 0, and advance tax not required. -/
theorem claim_C9_scenario_A :
    compute_total_tax_liability { basic_salary := 600000 }
      "FY 2025-26 / AY 2026-27" "Salaried" =
    some { taxable_income := 525000, gross_tax := 6250, rebate_87a := 6250,
           tax_after_rebate := 0, surcharge := 0, cess := 0, stcg_tax := 0,
           ltcg_tax := 0, total_tax := 0, advance_tax_required := false } := by
  norm_num [compute_total_tax_liability, computeTaxableIncome, calculate_income_tax,
    get_tax_slabs_2025, cfg2025, slabLoop, capAt, calculate_rebate_87a,
    calculate_cess_and_surcharge, calculate_capital_gains_tax, Option.bind]

/-- Claim C5: short-term capital-gains tax equals `15% * STCG` and long-term
capital-gains tax equals `10% * max(0, LTCG - 100000)`, computed from the
gains amounts alone, independently of the slab system; `LTCG <= 100000`
yields LTCG tax 0 and `LTCG = 150000` yields LTCG tax 5000. -/
theorem claim_C5_capital_gains (stcg ltcg : ℚ) :
    (calculate_capital_gains_tax stcg ltcg).1 = (15/100) * stcg ∧
    (calculate_capital_gains_tax stcg ltcg).2 = (10/100) * max 0 (ltcg - 100000) ∧
    (ltcg ≤ 100000 → (calculate_capital_gains_tax stcg ltcg).2 = 0) ∧
    (calculate_capital_gains_tax stcg 150000).2 = 5000 := by
  refine ⟨by simp [calculate_capital_gains_tax]; ring, by simp [calculate_capital_gains_tax]; ring, fun hle => ?_, ?_⟩
  · simp only [calculate_capital_gains_tax]
    rw [max_eq_left (by linarith)]
    ring
  · norm_num [calculate_capital_gains_tax]

theorem claim_C5_capital_gains_witness :
    (calculate_capital_gains_tax 1 50000).2 = 0 :=
  (claim_C5_capital_gains 1 50000).2.2.1 (by norm_num)

/-- Claim C4: for non-negative tax-after-rebate `R`, the surcharge is the
step function of taxable income with thresholds at 50 lakh, 1 crore, 2 crore
and 5 crore giving 10%, 15%, 25%, 37% of `R` and exactly 0 at or below
50 lakh; with `R` held constant the surcharge never decreases in taxable
income, and the cess always equals 4% of `R` plus surcharge. -/
theorem claim_C4_surcharge_cess (R : ℚ) (hR : 0 ≤ R) :
    (∀ T : ℚ, T ≤ 5000000 → (calculate_cess_and_surcharge R T).1 = 0) ∧
    (∀ T : ℚ, 5000000 < T → T ≤ 10000000 →
      (calculate_cess_and_surcharge R T).1 = R * (10/100)) ∧
    (∀ T : ℚ, 10000000 < T → T ≤ 20000000 →
      (calculate_cess_and_surcharge R T).1 = R * (15/100)) ∧
    (∀ T : ℚ, 20000000 < T → T ≤ 50000000 →
      (calculate_cess_and_surcharge R T).1 = R * (25/100)) ∧
    (∀ T : ℚ, 50000000 < T → (calculate_cess_and_surcharge R T).1 = R * (37/100)) ∧
    (∀ T1 T2 : ℚ, T1 ≤ T2 →
      (calculate_cess_and_surcharge R T1).1 ≤ (calculate_cess_and_surcharge R T2).1) ∧
    (∀ T : ℚ, (calculate_cess_and_surcharge R T).2 =
      (R + (calculate_cess_and_surcharge R T).1) * (4/100)) := by
  refine ⟨fun T hT => ?_, fun T h1 h2 => ?_, fun T h1 h2 => ?_, fun T h1 h2 => ?_,
    fun T h1 => ?_, fun T1 T2 h => ?_, fun T => ?_⟩ <;>
    simp only [calculate_cess_and_surcharge] <;> split_ifs <;> linarith

theorem claim_C4_surcharge_cess_witness :
    (calculate_cess_and_surcharge 100 0).1 = 0 :=
  (claim_C4_surcharge_cess 100 (by norm_num)).1 0 (by norm_num)


def nonnegProfile (p : IncomeProfile) : Prop :=
  0 ≤ p.basic_salary ∧ 0 ≤ p.hra ∧ 0 ≤ p.bonus ∧ 0 ≤ p.rent_received ∧
  0 ≤ p.municipal_tax ∧ 0 ≤ p.interest_paid ∧ 0 ≤ p.net_profit ∧
  0 ≤ p.dividends ∧ 0 ≤ p.interest_income ∧ 0 ≤ p.stcg ∧ 0 ≤ p.ltcg

/-- Claim C6: for every `IncomeProfile` with non-negative fields and every
supported fiscal year, `compute_total_tax_liability` succeeds and its taxable
income is: Salaried = basic salary + HRA + bonus minus the year's standard
deduction, floored at 0; Rental = rent received minus municipal tax minus
interest paid, floored at 0; Freelancer/Business = net profit as-is;
Investor = dividends plus interest income; any other variant (Mixed) = 0;
and in every case the result is non-negative. -/
theorem claim_C6_taxable_income (p : IncomeProfile) (hp : nonnegProfile p)
    (fy : String) (cfg : TaxYearConfig) (h : get_tax_slabs fy = some cfg)
    (emp : String) :
    ∃ r, compute_total_tax_liability p fy emp = some r ∧
      r.taxable_income =
        (if emp = "Salaried" then
          max 0 (p.basic_salary + p.hra + p.bonus - cfg.standard_deduction)
         else if emp = "Rental" then
          max 0 (p.rent_received - p.municipal_tax - p.interest_paid)
         else if emp = "Freelancer" ∨ emp = "Business" then p.net_profit
         else if emp = "Investor" then p.dividends + p.interest_income
         else 0) ∧
      0 ≤ r.taxable_income := by
  have hti := computeTaxableIncome_eq p h emp
  obtain ⟨h1, h2, h3, h4, h5, h6, h7, h8, h9, h10, h11⟩ := hp
  have hnn : (0:ℚ) ≤
      (if emp = "Salaried" then
        max 0 (p.basic_salary + p.hra + p.bonus - cfg.standard_deduction)
       else if emp = "Rental" then
        max 0 (p.rent_received - p.municipal_tax - p.interest_paid)
       else if emp = "Freelancer" ∨ emp = "Business" then p.net_profit
       else if emp = "Investor" then p.dividends + p.interest_income
       else 0) := by
    split_ifs <;> first | exact le_max_left 0 _ | linarith
  exact ⟨_, compute_total_tax_liability_eq p h emp hti, rfl, hnn⟩

theorem claim_C6_taxable_income_witness :
    ∃ r, compute_total_tax_liability
        { dividends := 8, interest_income := 9 }
        "FY 2025-26 / AY 2026-27" "Investor" = some r ∧
      r.taxable_income = 17 ∧ 0 ≤ r.taxable_income := by
  obtain ⟨r, hr, he, hn⟩ := claim_C6_taxable_income
    { dividends := 8, interest_income := 9 } (by norm_num [nonnegProfile])
    "FY 2025-26 / AY 2026-27" cfg2025 get_tax_slabs_2025 ("Investor")
  refine ⟨r, hr, ?_, hn⟩
  rw [he]
  simp
  norm_num

/-- Claim C7: for every profile, supported fiscal-year key and employment
variant, `compute_total_tax_liability` returns a `TaxResult` whose total
equals tax-after-rebate + surcharge + cess + STCG tax + LTCG tax, with
tax-after-rebate = gross tax - rebate, surcharge and cess computed from
tax-after-rebate and taxable income, capital-gains taxes computed from the
profile's gains alone, and the advance-tax flag set exactly when the total
exceeds the year's advance-tax threshold. -/
theorem claim_C7_total_liability (p : IncomeProfile) (fy : String)
    (cfg : TaxYearConfig) (h : get_tax_slabs fy = some cfg) (emp : String) :
    ∃ r, compute_total_tax_liability p fy emp = some r ∧
      r.tax_after_rebate = r.gross_tax - r.rebate_87a ∧
      r.surcharge = (calculate_cess_and_surcharge r.tax_after_rebate r.taxable_income).1 ∧
      r.cess = (calculate_cess_and_surcharge r.tax_after_rebate r.taxable_income).2 ∧
      r.stcg_tax = (calculate_capital_gains_tax p.stcg p.ltcg).1 ∧
      r.ltcg_tax = (calculate_capital_gains_tax p.stcg p.ltcg).2 ∧
      r.total_tax = r.tax_after_rebate + r.surcharge + r.cess +
        r.stcg_tax + r.ltcg_tax ∧
      (r.advance_tax_required = true ↔ cfg.advance_tax_threshold < r.total_tax) := by
  have hti := computeTaxableIncome_eq p h emp
  refine ⟨_, compute_total_tax_liability_eq p h emp hti,
    rfl, rfl, rfl, rfl, rfl, rfl, ?_⟩
  simp only [decide_eq_true_eq]

theorem claim_C7_total_liability_witness :
    ∃ r, compute_total_tax_liability {} "FY 2025-26 / AY 2026-27" "Salaried" =
        some r ∧
      r.tax_after_rebate = r.gross_tax - r.rebate_87a ∧
      r.surcharge = (calculate_cess_and_surcharge r.tax_after_rebate r.taxable_income).1 ∧
      r.cess = (calculate_cess_and_surcharge r.tax_after_rebate r.taxable_income).2 ∧
      r.stcg_tax = (calculate_capital_gains_tax 0 0).1 ∧
      r.ltcg_tax = (calculate_capital_gains_tax 0 0).2 ∧
      r.total_tax = r.tax_after_rebate + r.surcharge + r.cess +
        r.stcg_tax + r.ltcg_tax ∧
      (r.advance_tax_required = true ↔ cfg2025.advance_tax_threshold < r.total_tax) :=
  claim_C7_total_liability {} "FY 2025-26 / AY 2026-27" cfg2025
    get_tax_slabs_2025 ("Salaried")

/-- Claim C8: for each supported fiscal-year config, the gross slab tax is
non-decreasing over non-negative taxable incomes and Lipschitz with constant
the sum of the slab rates (hence continuous), and the marginal slab rates are
non-decreasing along the slab table (monotonic progressivity). -/
theorem claim_C8_monotone_progressive (fy : String) (cfg : TaxYearConfig)
    (h : get_tax_slabs fy = some cfg) :
    (∀ T1 T2 : ℚ, 0 ≤ T1 → T1 ≤ T2 →
      slabLoop T1 cfg.slabs ≤ slabLoop T2 cfg.slabs) ∧
    (∀ T1 T2 : ℚ, |slabLoop T1 cfg.slabs - slabLoop T2 cfg.slabs| ≤
      ratesSum cfg.slabs * |T1 - T2|) ∧
    List.Pairwise (· ≤ ·) (cfg.slabs.map Slab.rate) := by
  obtain ⟨hwf, hr⟩ := supported_config_wf h
  refine ⟨fun T1 T2 h1 h2 => ?_, fun T1 T2 => ?_, ?_⟩
  · rw [slabLoop_eq_refSlabTax T1 _ hwf, slabLoop_eq_refSlabTax T2 _ hwf]
    exact refSlabTax_mono h2 _ hr
  · rw [slabLoop_eq_refSlabTax T1 _ hwf, slabLoop_eq_refSlabTax T2 _ hwf]
    exact refSlabTax_lipschitz T1 T2 _ hr
  · rcases get_tax_slabs_cases h with h' | h' <;> subst h' <;>
      norm_num [cfg2024, cfg2025, List.pairwise_map, List.pairwise_cons]

theorem claim_C8_monotone_progressive_witness :
    slabLoop 100 cfg2025.slabs ≤ slabLoop 200 cfg2025.slabs :=
  (claim_C8_monotone_progressive ("FY 2025-26 / AY 2026-27") cfg2025
    get_tax_slabs_2025).1 100 200 (by norm_num) (by norm_num)

/-- Claim C10 as stated is false: `calculate_rebate_87a` with gross tax `-1`
and taxable income 1300000 (above the FY 2025-26 rebate ceiling) returns
rebate 0, which exceeds the gross tax `-1`. -/
theorem claim_C10_counterexample :
    calculate_rebate_87a (-1) 1300000 "FY 2025-26 / AY 2026-27" = some 0 ∧
    (-1 : ℚ) < 0 := by
  constructor
  · rw [calculate_rebate_87a, get_tax_slabs_2025]
    norm_num [cfg2025]
  · norm_num

/-- Claim C10, amended: for every NON-NEGATIVE gross tax the Section-87A
rebate never exceeds the gross tax; and every `TaxResult` produced by
`compute_total_tax_liability` for a supported fiscal year has
rebate <= gross tax (the engine's gross tax is always non-negative), so its
tax-after-rebate field is non-negative. -/
theorem claim_C10_amended_rebate_bound (G T : ℚ) (hG : 0 ≤ G) (fy : String)
    (cfg : TaxYearConfig) (h : get_tax_slabs fy = some cfg) :
    (∀ reb, calculate_rebate_87a G T fy = some reb → reb ≤ G) ∧
    (∀ p emp r, compute_total_tax_liability p fy emp = some r →
      r.rebate_87a ≤ r.gross_tax ∧ 0 ≤ r.tax_after_rebate) := by
  obtain ⟨hwf, hr⟩ := supported_config_wf h
  constructor
  · intro reb hreb
    rw [calculate_rebate_87a, h, Option.map_some', Option.some.injEq] at hreb
    split_ifs at hreb
    · rw [← hreb]
      exact min_le_left G cfg.rebate_max
    · rw [← hreb]
      exact hG
  · intro p emp r hcomp
    have hti := computeTaxableIncome_eq p h emp
    generalize hTI : (if emp = "Salaried" then
        max 0 (p.basic_salary + p.hra + p.bonus - cfg.standard_deduction)
       else if emp = "Rental" then
        max 0 (p.rent_received - p.municipal_tax - p.interest_paid)
       else if emp = "Freelancer" ∨ emp = "Business" then p.net_profit
       else if emp = "Investor" then p.dividends + p.interest_income
       else 0) = ti at hti
    rw [compute_total_tax_liability_eq p h emp hti, Option.some.injEq] at hcomp
    subst hcomp
    have hg : 0 ≤ slabLoop ti cfg.slabs := by
      rw [slabLoop_eq_refSlabTax _ _ hwf]
      exact refSlabTax_nonneg _ _ hr
    have hmin := min_le_left (slabLoop ti cfg.slabs) cfg.rebate_max
    constructor
    · dsimp only
      split_ifs
      · exact hmin
      · exact hg
    · dsimp only
      split_ifs
      · linarith
      · linarith

theorem claim_C10_amended_rebate_bound_witness : (5:ℚ) ≤ 5 :=
  (claim_C10_amended_rebate_bound 5 500000 (by norm_num) "FY 2025-26 / AY 2026-27"
    cfg2025 get_tax_slabs_2025).1 5
    (by rw [calculate_rebate_87a, get_tax_slabs_2025]; norm_num [cfg2025])



/-- The full contribution of a bounded slab: `(upper - lower) * rate`. -/
def fullContribution (s : Slab) : ℚ := (s.upper.getD 0 - s.lower) * s.rate

/-- Claim C2: for every supported fiscal-year config and non-negative taxable
income `T`, the gross tax of `calculate_income_tax` (a loop that stops once
`T <= lower`) equals the reference sum over all slabs of
`max(0, min(T, upper) - lower) * rate`; when `T` equals a slab's upper bound,
the tax is the sum of the full contributions of that slab and all slabs below
it (the slabs whose lower bound is below `T`), and every slab whose lower
bound is at least `T` — in particular the next slab — contributes zero. -/
theorem claim_C2_loop_refines_sum (fy : String) (cfg : TaxYearConfig)
    (h : get_tax_slabs fy = some cfg) (T : ℚ) (hT : 0 ≤ T) :
    calculate_income_tax T fy = some (refSlabTax T cfg.slabs) ∧
    (∀ s ∈ cfg.slabs, ∀ u : ℚ, s.upper = some u →
      slabLoop u cfg.slabs =
        ((cfg.slabs.takeWhile fun t => t.lower < u).map fullContribution).sum) ∧
    (∀ t : Slab, ∀ u : ℚ, u ≤ t.lower →
      max 0 (capAt u t.upper - t.lower) * t.rate = 0) := by
  refine ⟨?_, ?_, fun t u hu => ?_⟩
  · rw [calculate_income_tax, h, Option.map_some',
      slabLoop_eq_refSlabTax T cfg.slabs (supported_config_wf h).1]
  · rcases get_tax_slabs_cases h with h' | h' <;> subst h' <;> intro s hs u hu
    · fin_cases hs <;> simp only [Option.some.injEq] at hu <;> try subst hu
      all_goals first
        | exact Option.noConfusion hu
        | norm_num [slabLoop, capAt, cfg2024, fullContribution,
            List.takeWhile_cons]
    · fin_cases hs <;> simp only [Option.some.injEq] at hu <;> try subst hu
      all_goals first
        | exact Option.noConfusion hu
        | norm_num [slabLoop, capAt, cfg2025, fullContribution,
            List.takeWhile_cons]
  · have hc := capAt_le u t.upper
    rw [max_eq_left (by linarith)]
    ring

theorem claim_C2_loop_refines_sum_witness :
    calculate_income_tax 500000 "FY 2025-26 / AY 2026-27" =
      some (refSlabTax 500000 cfg2025.slabs) :=
  (claim_C2_loop_refines_sum ("FY 2025-26 / AY 2026-27") cfg2025
    get_tax_slabs_2025 500000 (by norm_num)).1


end TaxBot
